import Mathlib

/-!
Shallow embedding of the nginx-saml-proxy authentication gateway
(src/app.py) for checking its natural-language specification.

The embedding follows the Flask application source:
* a Flask session is a dictionary of optional entries;
* Python truthiness of strings and of the stored `has_2fa` value is made
  explicit;
* `urllib.parse.urljoin` and `urlparse` are modelled on the input shapes
  this service actually passes them (bases of the form `scheme://host/`,
  relative references without dot segments).
-/

namespace SamlProxy

/-- Python `str.split(sep)` for a one-character separator, on the character
list of the string: `"".split(c) = [""]`, and empty fields are kept. -/
def splitOnChar (c : Char) : List Char → List (List Char)
  | [] => [[]]
  | x :: xs =>
    match splitOnChar c xs with
    | [] => if x = c then [[], []] else [[x]]
    | y :: ys => if x = c then [] :: y :: ys else (x :: y) :: ys

/-- Python `str.split(sep)` for a one-character separator, on strings. -/
def splitStr (c : Char) (s : String) : List String :=
  (splitOnChar c s.data).map String.mk

/-- Python `str.split(sep, 1)`: the part before the first occurrence of the
separator, and the remainder after it when the separator occurs. -/
def splitFirst (c : Char) : List Char → List Char × Option (List Char)
  | [] => ([], none)
  | x :: xs =>
    if x = c then ([], some xs)
    else
      let r := splitFirst c xs
      (x :: r.1, r.2)

/-- Python `sep.join(parts)`. -/
def joinSep (sep : String) : List String → String
  | [] => ""
  | [x] => x
  | x :: xs => x ++ sep ++ joinSep sep xs

/-- Boolean list-of-characters test: does the second list start with the
first one? Used to model Python `str.startswith`. -/
def leadsList : List Char → List Char → Bool
  | [], _ => true
  | _ :: _, [] => false
  | c :: cs, d :: ds => c = d && leadsList cs ds

/-- Python `s.startswith(p)`. -/
def pyStartsWith (s p : String) : Bool := leadsList p.data s.data

/-- Python truthiness of an optional string (`None` and `''` are falsy). -/
def pyTruthyStr : Option String → Bool
  | none => false
  | some s => !(s == "")

/-- Python truthiness of a value that is `None`, `True` or `False`
(only `True` is truthy). -/
def pyTruthyBool : Option Bool → Bool
  | none => false
  | some b => b

/-- Python `str(v).lower()` for a value that is `None`, `True` or `False`. -/
def pyStrLower : Option Bool → String
  | none => "none"
  | some true => "true"
  | some false => "false"

/-- A character allowed inside a URL scheme after the leading letter
(`urllib.parse.scheme_chars`). -/
def schemeChar (c : Char) : Bool :=
  c.isAlphanum || c == '+' || c == '-' || c == '.'

/-- Scheme extraction of `urllib.parse.urlsplit`: when the text before the
first `:` is a nonempty letter-led run of scheme characters, return it
together with the rest; otherwise there is no scheme. -/
def schemeSplit (l : List Char) : Option (List Char × List Char) :=
  match splitFirst ':' l with
  | (_, none) => none
  | (a, some rest) =>
    match a with
    | [] => none
    | c :: cs => if c.isAlpha && cs.all schemeChar then some (a, rest) else none

/-- Network-location extraction of `urllib.parse.urlsplit`: the netloc runs
until the first `/`, `?` or `#`; returns `(netloc, rest)`. -/
def splitNetloc : List Char → List Char × List Char
  | [] => ([], [])
  | c :: cs =>
    if c = '/' || c = '?' || c = '#' then ([], c :: cs)
    else
      let r := splitNetloc cs
      (c :: r.1, r.2)

/-- Path and query of `urllib.parse.urlparse(s)`, as used on the `rd`
query field: strip a scheme, strip a `//netloc`, split off a fragment at
the first `#`, then split off the query at the first `?`. -/
def urlparsePathQuery (s : String) : String × String :=
  let l := s.data
  let l1 := match schemeSplit l with
    | some r => r.2
    | none => l
  let l2 := match l1 with
    | '/' :: '/' :: rest => (splitNetloc rest).2
    | _ => l1
  let l3 := (splitFirst '#' l2).1
  let pq := splitFirst '?' l3
  (String.mk pq.1, String.mk (pq.2.getD []))

/-- The request origin: Flask `request.url_root` is modelled as
`scheme ++ "://" ++ host ++ "/"` (the service is mounted at the root). -/
structure Origin where
  scheme : String
  host : String
  deriving DecidableEq

/-- The origin without the trailing slash, `request.url_root[:-1]`. -/
def Origin.str (o : Origin) : String := o.scheme ++ "://" ++ o.host

/-- Flask `request.url_root` (ends with a slash). -/
def Origin.urlRoot (o : Origin) : String := o.str ++ "/"

/-- Resolution of a scheme-less relative reference against the origin, per
`urllib.parse.urljoin` with a base of the form `scheme://host/`:
a network-path reference `//…` keeps only the base scheme, an
absolute-path reference `/…` keeps scheme and host, a bare path is merged
onto the root path, and an empty reference yields the base. -/
def joinRel (o : Origin) (rel : String) : String :=
  if pyStartsWith rel "//" then o.scheme ++ ":" ++ rel
  else if pyStartsWith rel "/" then o.str ++ rel
  else if rel = "" then o.urlRoot
  else o.str ++ "/" ++ rel

/-- Model of `urllib.parse.urljoin(base, rel)` for a base of the form
`scheme://host/` and relative references without dot segments: a
reference with its own scheme and netloc replaces the base entirely; one
with the base scheme and no netloc resolves relative; one with a foreign
scheme is returned unchanged. -/
def urljoin (o : Origin) (rel : String) : String :=
  match schemeSplit rel.data with
  | none => joinRel o rel
  | some (sch, rest) =>
    if leadsList ['/', '/'] rest then rel
    else if String.mk sch = o.scheme then joinRel o (String.mk rest) else rel

/-- The Flask session dictionary, with the three keys the application
stores.  Each field is `none` when the key is absent; `has_2fa` holds the
stored Python value, itself `None`, `True` or `False` (the application
stores `attributes.get('two_factor')`, which is `None` when the
assertion carries no such attribute). -/
structure Session where
  userid : Option String
  groups : Option (List String)
  has_2fa : Option (Option Bool)
  deriving DecidableEq

/-- The empty (anonymous) session, also the result of `session.clear()`. -/
def emptySession : Session := ⟨none, none, none⟩

/-- Python `session.get('has_2fa', False)`: the stored value when the key
exists (possibly `None`), else `False`. -/
def sessionGet2fa (s : Session) : Option Bool :=
  match s.has_2fa with
  | none => some false
  | some v => v

/-- Second-factor requirement derived from the request path,
`'2fa' in request.path.split('/')`. -/
def wants2fa (path : String) : Bool :=
  (splitStr '/' path).contains "2fa"

/-- One hexadecimal digit, lower case. -/
def hexDigit (n : Nat) : Char :=
  if n < 10 then Char.ofNat (48 + n) else Char.ofNat (87 + n)

/-- Four-digit lower-case hexadecimal rendering, for JSON `\uXXXX`. -/
def hex4 (n : Nat) : String :=
  String.mk [hexDigit (n / 4096 % 16), hexDigit (n / 256 % 16),
             hexDigit (n / 16 % 16), hexDigit (n % 16)]

/-- JSON escaping of one character as `json.dumps` performs it. -/
def jsonEscapeChar (c : Char) : String :=
  if c = '"' then "\\\""
  else if c = '\\' then "\\\\"
  else if c.toNat < 32 then "\\u" ++ hex4 c.toNat
  else String.singleton c

/-- JSON string literal for `s`. -/
def jsonStr (s : String) : String :=
  "\"" ++ String.join (s.data.map jsonEscapeChar) ++ "\""

/-- JSON array literal for a list of strings. -/
def jsonStrList (l : List String) : String :=
  "[" ++ joinSep ", " (l.map jsonStr) ++ "]"

/-- JSON rendering of a Python value that is `None`, `True` or `False`. -/
def jsonOptBool : Option Bool → String
  | none => "null"
  | some true => "true"
  | some false => "false"

/-- The JSON status body, `flask.json.dumps({"user": …, "groups": …,
"two_factor": …})`: Flask dumps with sorted keys, so the order is
`groups`, `two_factor`, `user`. -/
def jsonStatusBody (uid : String) (groups : List String) (tf : Option Bool) : String :=
  "\x7b\"groups\": " ++ jsonStrList groups ++ ", \"two_factor\": " ++
    jsonOptBool tf ++ ", \"user\": " ++ jsonStr uid ++ "\x7d"

/-- A single-quote character, for the Python `repr` of strings. -/
def sq : String := String.singleton (Char.ofNat 39)

/-- Python `str(groups)` for a list of simple strings. -/
def pyStrList (l : List String) : String :=
  "[" ++ joinSep ", " (l.map fun g => sq ++ g ++ sq) ++ "]"

/-- The plain-text status body. -/
def textStatusBody (uid : String) (groups : List String) (str2fa : String) : String :=
  "Logged in as: " ++ uid ++ "\nGroups: " ++ pyStrList groups ++ "\n2FA: " ++ str2fa

/-- Outcome of the `status` view: `Unauthorized` (401), `Forbidden` (403,
audit-logged), or a 200 response carrying headers and a body. -/
inductive StatusResult where
  | unauthorized
  | forbidden
  | ok (headers : List (String × String)) (body : String)
  deriving DecidableEq

/-- HTTP status code of a `StatusResult`. -/
def httpStatus : StatusResult → Nat
  | .unauthorized => 401
  | .forbidden => 403
  | .ok _ _ => 200

/-- The `status` view (src/app.py `status`): report authentication status
from the session, the route group (if any), the raw request path and the
content negotiation outcome (`wants_json`). -/
def status (s : Session) (group : Option String) (path : String) (json : Bool) :
    StatusResult :=
  let userid := s.userid
  let groups := s.groups.getD []
  let w2fa := wants2fa path
  let has2fa := sessionGet2fa s
  if !(pyTruthyStr userid) || (w2fa && !(pyTruthyBool has2fa)) then
    .unauthorized
  else if pyTruthyStr group && !(groups.contains (group.getD "")) then
    .forbidden
  else
    let str2fa := pyStrLower has2fa
    let uid := userid.getD ""
    let headers := [("X-Saml-User", uid),
                    ("X-Saml-Groups", joinSep ":" groups),
                    ("X-Saml-2fa", str2fa)]
    if json then
      .ok (headers ++ [("Content-Type", "application/json")])
        (jsonStatusBody uid groups has2fa)
    else
      .ok headers (textStatusBody uid groups str2fa)

/-- Per-request identity-provider override (`federated.SccaIdp`), present
only when the `X-Saml-Idp` header is supplied; `sso_url` and `x509_cert`
are `none` when the corresponding nested override header is absent. -/
structure IdpConfig where
  name : String
  sso_url : Option String
  x509_cert : Option String
  deriving DecidableEq

/-- The per-request SAML parameters assembled by `_saml_args`. -/
structure SamlArgs where
  entity_id : String
  acs_url : String
  idp : Option IdpConfig
  deriving DecidableEq

/-- Request headers, as a lookup from (canonical) header name to value;
Flask header access is case-insensitive, so the mixed-case literals in the
source denote the same keys as their canonical spellings. -/
def Headers := String → Option String

/-- `_saml_args` (src/app.py): entity id defaults to the origin without
its trailing slash, the assertion-consumer URL to
`urljoin(request.url_root, 'login')`; each is overridden by its header,
the ACS override being passed through `urljoin` against `url_root`; the
idp entry exists only when `X-Saml-Idp` is present, and only then are the
`X-Saml-Idp-Url` and `X-Saml-Idp-Cert` overrides consulted. -/
def saml_args (root : Origin) (h : Headers) : SamlArgs :=
  let entity_id := match h "X-Saml-Entity-Id" with
    | some v => v
    | none => root.str
  let acs_url := match h "X-Saml-Acs" with
    | some v => urljoin root v
    | none => urljoin root "login"
  let idp := match h "X-Saml-Idp" with
    | none => none
    | some n => some ⟨n, h "X-Saml-Idp-Url", h "X-Saml-Idp-Cert"⟩
  ⟨entity_id, acs_url, idp⟩

/-- A request to the `login_redirect` view: the optional `rd` query field,
the route path segment (`''` when absent), the raw query string, the
request path and headers, and the request origin. -/
structure RedirectRequest where
  rd : Option String
  return_to : String
  query_string : String
  path : String
  headers : Headers
  root : Origin

/-- What `login_redirect` hands to the protocol library: the RelayState
(`return_to`), the two-factor flag, the resolved SAML parameters, and the
number of conflict warnings logged. -/
structure RedirectOutcome where
  return_to : String
  two_factor : Bool
  args : SamlArgs
  warnings : Nat
  deriving DecidableEq

/-- The `login_redirect` view (src/app.py): if `rd` is present its parsed
path and query win (logging a conflict warning when a path segment was
also supplied), else the path segment prefixed with `/` and the raw query
string are used; an empty query contributes nothing; the result is the
concatenation. -/
def login_redirect (req : RedirectRequest) : RedirectOutcome :=
  let branch :=
    match req.rd with
    | some rdv =>
      let pq := urlparsePathQuery rdv
      let w := if req.return_to ≠ "" then 1 else 0
      (pq.1, "?" ++ pq.2, w)
    | none => ("/" ++ req.return_to, "?" ++ req.query_string, 0)
  let qs := if branch.2.1 = "?" then "" else branch.2.1
  { return_to := branch.1 ++ qs
    two_factor := pyStartsWith req.path "/2fa/"
    args := saml_args req.root req.headers
    warnings := branch.2.2 }

/-- Return path as the spec words it: parsed from `rd` when present, else
the path segment prefixed with `/`. -/
def specRetPath (req : RedirectRequest) : String :=
  match req.rd with
  | some r => (urlparsePathQuery r).1
  | none => "/" ++ req.return_to

/-- Return query as the spec words it: parsed from `rd` when present, else
the raw request query string. -/
def specRetQuery (req : RedirectRequest) : String :=
  match req.rd with
  | some r => (urlparsePathQuery r).2
  | none => req.query_string

/-- The attribute map returned by `uw_saml2.process_response`, viewed
through the accesses the application performs: lookup of the identity
attribute by name, `get('groups', [])` and `get('two_factor')`. -/
structure Attributes where
  lookup : String → Option String
  groups : Option (List String)
  two_factor : Option Bool

/-- Outcome of the `login` view: a GET re-enters the redirect flow; a POST
either fails (`InvalidAssertion` from the library, or a missing identity
attribute raising `KeyError`), redirects to the joined RelayState, or
responds with the status payload. -/
inductive LoginResult where
  | redirectFlow
  | invalidAssertion
  | missingAttribute
  | redirect (url : String)
  | statusPage (r : StatusResult)
  deriving DecidableEq

/-- The `login` view (src/app.py): clear the session, re-enter the
redirect flow on GET; on POST process the assertion (`proc` stands for
the protocol-library call), populate the session from the attributes,
then either redirect to a RelayState starting with `/` (joined against
`url_root`) or return the status payload. -/
def login (prev : Session) (isPost : Bool) (h : Headers)
    (form : String → Option String) (proc : Except Unit Attributes)
    (root : Origin) (json : Bool) : Session × LoginResult :=
  let _ := prev
  let sess := emptySession
  if !isPost then (sess, .redirectFlow)
  else
    match proc with
    | .error _ => (sess, .invalidAssertion)
    | .ok attrs =>
      let idName := match h "X-Saml-Idp-Id-Attr" with
        | some n => n
        | none => "uwnetid"
      match attrs.lookup idName with
      | none => (sess, .missingAttribute)
      | some uid =>
        let sess : Session :=
          ⟨some uid, some (attrs.groups.getD []), some attrs.two_factor⟩
        let relay := form "RelayState"
        if pyTruthyStr relay && pyStartsWith (relay.getD "") "/" then
          (sess, .redirect (urljoin root (relay.getD "")))
        else
          (sess, .statusPage (status sess none "/login" json))

/-! ### Helper lemmas -/

/-- A string whose character list begins with `/` has no URL scheme. -/
theorem schemeSplit_slash (l : List Char) : schemeSplit ('/' :: l) = none := by
  have h : splitFirst ':' ('/' :: l) =
      ('/' :: (splitFirst ':' l).1, (splitFirst ':' l).2) := by
    simp [splitFirst]
  unfold schemeSplit
  rw [h]
  rcases h2 : (splitFirst ':' l).2 with _ | rest
  · rfl
  · simp

/-- A string that begins with `//` also begins with `/`. -/
theorem startsSlash_of_double (v : String) (h : pyStartsWith v "//" = true) :
    pyStartsWith v "/" = true := by
  unfold pyStartsWith at *
  have hd2 : ("//" : String).data = ['/', '/'] := rfl
  have hd1 : ("/" : String).data = ['/'] := rfl
  rw [hd2] at h
  rw [hd1]
  rcases hd : v.data with _ | ⟨c, cs⟩
  · rw [hd] at h
    simp [leadsList] at h
  · rw [hd] at h
    simp [leadsList] at h ⊢
    exact h.1

/-- A relative reference that begins with `/` but not with `//` resolves to
the same path on the request origin. -/
theorem urljoin_abs_path (o : Origin) (r : String)
    (h1 : pyStartsWith r "/" = true) (h2 : pyStartsWith r "//" = false) :
    urljoin o r = o.str ++ r := by
  rcases hd : r.data with _ | ⟨c, cs⟩
  · rw [pyStartsWith, hd] at h1
    simp [leadsList] at h1
  · have hc : c = '/' := by
      rw [pyStartsWith, hd] at h1
      simp [leadsList] at h1
      exact h1.symm
    subst hc
    unfold urljoin
    rw [hd, schemeSplit_slash, joinRel, h1, h2]
    simp

/-- A nonempty relative reference that does not begin with `/` and has no
scheme resolves under the root path of the origin. -/
theorem joinRel_bare (o : Origin) (v : String)
    (hne : v ≠ "") (h : pyStartsWith v "/" = false) :
    joinRel o v = o.str ++ "/" ++ v := by
  have h2 : pyStartsWith v "//" = false := by
    rcases hx : pyStartsWith v "//" with _ | _
    · rfl
    · exact absurd (startsSlash_of_double v hx) (by simp [h])
  rw [joinRel, h, h2]
  simp [hne]

/-- Appending a query suffix that does not itself begin with `/` does not
change whether the string begins with `/`. -/
theorem pyStartsWith_append_slash (p qs : String)
    (hqs : pyStartsWith qs "/" = false) :
    pyStartsWith (p ++ qs) "/" = pyStartsWith p "/" := by
  unfold pyStartsWith at *
  rw [String.data_append p qs]
  rcases p.data with _ | ⟨c, cs⟩
  · simpa using hqs
  · simp [leadsList]

/-- A string obtained by prefixing `/` begins with `/`. -/
theorem pyStartsWith_slash_append (x : String) :
    pyStartsWith ("/" ++ x) "/" = true := by
  unfold pyStartsWith
  rw [String.data_append]
  have h1 : ("/" : String).data = ['/'] := rfl
  rw [h1]
  simp [leadsList]

/-- A string obtained by prefixing `?` does not begin with `/`. -/
theorem pyStartsWith_qmark_append (x : String) :
    pyStartsWith ("?" ++ x) "/" = false := by
  unfold pyStartsWith
  rw [String.data_append]
  have h1 : ("/" : String).data = ['/'] := rfl
  have h2 : ("?" : String).data = ['?'] := rfl
  rw [h1, h2]
  simp [leadsList]

/-- The query prefix test of `login_redirect`: prefixing `?` yields `?`
itself exactly for the empty query. -/
theorem qmark_append_eq (q : String) : ("?" ++ q = "?") ↔ (q = "") := by
  rw [String.ext_iff, String.ext_iff, String.data_append]
  constructor
  · intro h
    have hlen := congrArg List.length h
    rw [List.length_append] at hlen
    have hq : q.data.length = 0 := by omega
    exact List.length_eq_zero.mp hq
  · intro h
    simp [h]

/-- Normalization of the query suffix: testing the `?`-prefixed query
against `?` is the same as testing the query against the empty string. -/
theorem qs_norm (q : String) :
    (if ("?" ++ q = "?") then "" else "?" ++ q) =
      (if q = "" then "" else "?" ++ q) := by
  by_cases hq : q = ""
  · rw [if_pos ((qmark_append_eq q).mpr hq), if_pos hq]
  · rw [if_neg (fun hcc => hq ((qmark_append_eq q).mp hcc)), if_neg hq]

/-! ### Claim theorems -/

/-- C1: for every request evaluated by the status endpoint, an absent
session yields Unauthenticated (401); a second-factor requirement against
a session lacking one yields Unauthenticated (401); otherwise with a
required group set the decision is Forbidden (403) exactly when that group
is not among the session groups; otherwise the decision is Allowed
(200). -/
theorem status_decision_engine (s : Session) (g : Option String)
    (path : String) (json : Bool) :
    (s.userid = none → httpStatus (status s g path json) = 401) ∧
    (wants2fa path = true → pyTruthyBool (sessionGet2fa s) = false →
      httpStatus (status s g path json) = 401) ∧
    (pyTruthyStr s.userid = true →
      (wants2fa path = true → pyTruthyBool (sessionGet2fa s) = true) →
      ∀ gname, g = some gname → gname ≠ "" →
        (httpStatus (status s g path json) = 403 ↔
          gname ∉ s.groups.getD [])) ∧
    (pyTruthyStr s.userid = true →
      (wants2fa path = true → pyTruthyBool (sessionGet2fa s) = true) →
      g = none → httpStatus (status s g path json) = 200) := by
  refine ⟨?_, ?_, ?_, ?_⟩
  · intro h
    simp [status, h, pyTruthyStr, httpStatus]
  · intro h1 h2
    simp [status, h1, h2, httpStatus]
  · intro hu h2 gname hg hne
    subst hg
    have hmain : (!(pyTruthyStr s.userid) ||
        (wants2fa path && !(pyTruthyBool (sessionGet2fa s)))) = false := by
      rcases hw : wants2fa path with _ | _
      · simp [hu]
      · simp [hu, h2 hw]
    have hgt : pyTruthyStr (some gname) = true := by
      simp [pyTruthyStr, hne]
    by_cases hmem : gname ∈ s.groups.getD []
    · have hcont : (s.groups.getD []).contains gname = true :=
        List.elem_iff.mpr hmem
      rcases json with _ | _ <;>
        simp [status, hmain, hgt, hcont, httpStatus, hmem]
    · have hcont : (s.groups.getD []).contains gname = false := by
        simpa using hmem
      simp [status, hmain, hgt, hcont, httpStatus, hmem]
  · intro hu h2 hg
    subst hg
    have hmain : (!(pyTruthyStr s.userid) ||
        (wants2fa path && !(pyTruthyBool (sessionGet2fa s)))) = false := by
      rcases hw : wants2fa path with _ | _
      · simp [hu]
      · simp [hu, h2 hw]
    have hgf : pyTruthyStr (none : Option String) = false := rfl
    rcases json with _ | _ <;> simp [status, hmain, hgf, httpStatus]

/-- C1 witness: the four cases of the decision engine at concrete
inputs. -/
theorem status_decision_engine_witness :
    httpStatus (status emptySession none "/status" false) = 401 ∧
    httpStatus (status ⟨some "abc", some [], some (some false)⟩ none
      "/status/2fa" false) = 401 ∧
    httpStatus (status ⟨some "abc", some ["g1"], some (some true)⟩
      (some "admin") "/status/group/admin" true) = 403 ∧
    httpStatus (status ⟨some "abc", some ["g1"], some (some true)⟩ none
      "/status" false) = 200 := by
  refine ⟨(status_decision_engine emptySession none "/status" false).1 rfl,
    (status_decision_engine ⟨some "abc", some [], some (some false)⟩ none
      "/status/2fa" false).2.1 (by decide) (by decide),
    ((status_decision_engine ⟨some "abc", some ["g1"], some (some true)⟩
      (some "admin") "/status/group/admin" true).2.2.1 (by decide)
      (by decide) "admin" rfl (by decide)).mpr (by decide),
    (status_decision_engine ⟨some "abc", some ["g1"], some (some true)⟩ none
      "/status" false).2.2.2 (by decide) (by decide) rfl⟩

/-- C10: the second-factor requirement is derived by splitting the request
path on `/` and testing for a `2fa` segment, so the route
`/status/group/2fa` (required group named `2fa`) also demands a second
factor and yields 401 for any session without one. -/
theorem status_group_named_2fa (s : Session) (json : Bool) :
    wants2fa "/status/group/2fa" = true ∧
    (pyTruthyBool (sessionGet2fa s) = false →
      httpStatus (status s (some "2fa") "/status/group/2fa" json) = 401) := by
  have hw : wants2fa "/status/group/2fa" = true := by decide
  refine ⟨hw, fun h => ?_⟩
  simp [status, hw, h, httpStatus]

/-- C10 witness: a session that is a member of group `2fa` but lacks a
second factor still receives 401 on `/status/group/2fa`. -/
theorem status_group_named_2fa_witness :
    httpStatus (status ⟨some "abc", some ["2fa"], some (some false)⟩
      (some "2fa") "/status/group/2fa" false) = 401 :=
  (status_group_named_2fa ⟨some "abc", some ["2fa"], some (some false)⟩
    false).2 (by decide)

/-- C2: the callback endpoint clears any pre-existing session before the
assertion is processed (the outcome never depends on the prior session);
when processing fails — the protocol library rejecting the assertion, or
the identity attribute being missing — the session stays absent; and the
resulting session is never partially populated: it is either empty or
carries all three fields. -/
theorem login_clears_session (s1 s2 : Session) (isPost : Bool) (h : Headers)
    (form : String → Option String) (proc : Except Unit Attributes)
    (root : Origin) (json : Bool) :
    login s1 isPost h form proc root json =
      login s2 isPost h form proc root json ∧
    (∀ e, proc = .error e →
      login s1 true h form proc root json = (emptySession, .invalidAssertion)) ∧
    ((login s1 isPost h form proc root json).1 = emptySession ∨
      ∃ uid g tf, (login s1 isPost h form proc root json).1 =
        ⟨some uid, some g, some tf⟩) := by
  refine ⟨rfl, fun e he => by rw [he]; rfl, ?_⟩
  unfold login
  rcases isPost with _ | _
  · exact Or.inl rfl
  · rcases proc with e | attrs
    · exact Or.inl rfl
    · simp only []
      rcases attrs.lookup (match h "X-Saml-Idp-Id-Attr" with
        | some n => n
        | none => "uwnetid") with _ | uid
      · exact Or.inl rfl
      · by_cases hr : (pyTruthyStr (form "RelayState") &&
          pyStartsWith ((form "RelayState").getD "") "/") = true
        · simp only [hr, if_pos]
          exact Or.inr ⟨uid, _, _, rfl⟩
        · simp only [hr, if_neg]
          exact Or.inr ⟨uid, _, _, rfl⟩

/-- C2 witness: a populated prior session together with a rejected
assertion leaves the session empty, and equals the run from any other
prior session. -/
theorem login_clears_session_witness :
    login ⟨some "old", some ["g1"], some (some true)⟩ true (fun _ => none)
        (fun _ => none) (.error ()) ⟨"https", "me.example"⟩ false =
      (emptySession, .invalidAssertion) ∧
    login ⟨some "old", some ["g1"], some (some true)⟩ true (fun _ => none)
        (fun _ => none) (.error ()) ⟨"https", "me.example"⟩ false =
      login emptySession true (fun _ => none) (fun _ => none) (.error ())
        ⟨"https", "me.example"⟩ false :=
  ⟨(login_clears_session ⟨some "old", some ["g1"], some (some true)⟩
      emptySession true (fun _ => none) (fun _ => none) (.error ())
      ⟨"https", "me.example"⟩ false).2.1 () rfl,
   (login_clears_session ⟨some "old", some ["g1"], some (some true)⟩
      emptySession true (fun _ => none) (fun _ => none) (.error ())
      ⟨"https", "me.example"⟩ false).1⟩

/-- C3 counterexample: a posted RelayState of `//evil.com/x` is not a
same-origin absolute path, yet the callback responds with a redirect —
and its target lies on a foreign origin, not under the service's
`url_root`. -/
theorem relay_state_foreign_redirect :
    (login emptySession true (fun _ => none)
        (fun k => if k = "RelayState" then some "//evil.com/x" else none)
        (.ok ⟨fun k => if k = "uwnetid" then some "abc" else none,
          some ["staff"], some true⟩)
        ⟨"https", "me.example"⟩ false).2 =
      .redirect "https://evil.com/x" ∧
    pyStartsWith "https://evil.com/x"
      (Origin.urlRoot ⟨"https", "me.example"⟩) = false ∧
    pyStartsWith "//evil.com/x" "/" = true := by decide

/-- C3 (amended): after the protocol library accepts the assertion, a
RelayState beginning with `/` triggers a redirect to
`urljoin(url_root, relay_state)` — same-origin whenever the value does
not begin with `//` — and any other RelayState (or its absence) yields
the status payload for the fresh session; a `//`-led value, however, can
leave the origin. -/
theorem relay_state_redirect_amended (prev : Session) (h : Headers)
    (form : String → Option String) (attrs : Attributes) (root : Origin)
    (json : Bool) (uid : String)
    (huid : attrs.lookup (match h "X-Saml-Idp-Id-Attr" with
      | some n => n
      | none => "uwnetid") = some uid) :
    (∀ r, form "RelayState" = some r → pyStartsWith r "/" = true →
      pyStartsWith r "//" = false →
      login prev true h form (.ok attrs) root json =
        (⟨some uid, some (attrs.groups.getD []), some attrs.two_factor⟩,
          .redirect (root.str ++ r))) ∧
    (∀ r, form "RelayState" = some r → pyStartsWith r "/" = false →
      login prev true h form (.ok attrs) root json =
        (⟨some uid, some (attrs.groups.getD []), some attrs.two_factor⟩,
          .statusPage (status ⟨some uid, some (attrs.groups.getD []),
            some attrs.two_factor⟩ none "/login" json))) ∧
    (form "RelayState" = none →
      login prev true h form (.ok attrs) root json =
        (⟨some uid, some (attrs.groups.getD []), some attrs.two_factor⟩,
          .statusPage (status ⟨some uid, some (attrs.groups.getD []),
            some attrs.two_factor⟩ none "/login" json))) := by
  refine ⟨?_, ?_, ?_⟩
  · intro r hrel hr1 hr2
    have hne : (r == "") = false := by
      rcases hx : (r == "") with _ | _
      · rfl
      · exfalso
        have he : r = "" := by simpa using hx
        subst he
        exact absurd hr1 (by decide)
    simp only [login]
    rw [huid, hrel]
    simp [pyTruthyStr, hne, hr1, urljoin_abs_path root r hr1 hr2]
  · intro r hrel hr1
    simp only [login]
    rw [huid, hrel]
    simp [pyTruthyStr, hr1]
  · intro hrel
    simp only [login]
    rw [huid, hrel]
    simp [pyTruthyStr]

/-- C3 amended witness: a same-origin RelayState `/ret?x=1` redirects to
the same path under the service origin. -/
theorem relay_state_redirect_amended_witness :
    login emptySession true (fun _ => none)
        (fun k => if k = "RelayState" then some "/ret?x=1" else none)
        (.ok ⟨fun k => if k = "uwnetid" then some "abc" else none,
          some ["staff"], some true⟩)
        ⟨"https", "me.example"⟩ false =
      (⟨some "abc", some ["staff"], some (some true)⟩,
        .redirect "https://me.example/ret?x=1") := by
  have happ := (relay_state_redirect_amended emptySession (fun _ => none)
      (fun k => if k = "RelayState" then some "/ret?x=1" else none)
      ⟨fun k => if k = "uwnetid" then some "abc" else none,
        some ["staff"], some true⟩
      ⟨"https", "me.example"⟩ false "abc" (by decide)).1 "/ret?x=1"
      (by decide) (by decide) (by decide)
  exact happ.trans (by decide)

/-- C4 counterexample: an absolute foreign callback URL supplied through
the ACS override header is accepted verbatim as the assertion-consumer
URL — it does not lie under the service origin, and no rejection
occurs. -/
theorem acs_override_foreign_accepted :
    (saml_args ⟨"https", "me.example"⟩
        (fun k => if k = "X-Saml-Acs" then some "https://evil.com/acs"
          else none)).acs_url = "https://evil.com/acs" ∧
    pyStartsWith "https://evil.com/acs"
      (Origin.urlRoot ⟨"https", "me.example"⟩) = false := by decide

/-- C4 (amended): the callback URL override is passed through
`urljoin` against the request's `url_root`: an absolute-path value (and
likewise a bare relative value) resolves on the service's own origin,
but a value with its own scheme and network location — a foreign
absolute URL — is accepted unchanged; the resolver is total and never
rejects a request. -/
theorem acs_override_amended (root : Origin) (h : Headers) (v : String)
    (hv : h "X-Saml-Acs" = some v) :
    (saml_args root h).acs_url = urljoin root v ∧
    (pyStartsWith v "/" = true → pyStartsWith v "//" = false →
      (saml_args root h).acs_url = root.str ++ v) ∧
    (schemeSplit v.data = none → pyStartsWith v "/" = false → v ≠ "" →
      (saml_args root h).acs_url = root.str ++ "/" ++ v) := by
  have hbase : (saml_args root h).acs_url = urljoin root v := by
    simp [saml_args, hv]
  refine ⟨hbase, fun h1 h2 => ?_, fun hs h1 hne => ?_⟩
  · rw [hbase, urljoin_abs_path root v h1 h2]
  · rw [hbase]
    unfold urljoin
    rw [hs]
    exact joinRel_bare root v hne h1

/-- C4 amended witness: a relative override `cb` resolves under the
service origin. -/
theorem acs_override_amended_witness :
    (saml_args ⟨"https", "me.example"⟩
        (fun k => if k = "X-Saml-Acs" then some "cb" else none)).acs_url =
      "https://me.example/cb" := by
  have happ := (acs_override_amended ⟨"https", "me.example"⟩
      (fun k => if k = "X-Saml-Acs" then some "cb" else none) "cb"
      (by decide)).2.2 (by decide) (by decide) (by decide)
  exact happ.trans (by decide)

/-- C9 counterexample: supplying only the identity-provider SSO endpoint
override header has no effect at all — the resolved parameters equal the
all-defaults resolution and carry no idp entry, because that override is
consulted only when the `X-Saml-Idp` header is present. -/
theorem idp_sso_override_not_independent :
    saml_args ⟨"https", "me.example"⟩
        (fun k => if k = "X-Saml-Idp-Url" then some "https://sso.example/sso"
          else none) =
      saml_args ⟨"https", "me.example"⟩ (fun _ => none) ∧
    (saml_args ⟨"https", "me.example"⟩
        (fun k => if k = "X-Saml-Idp-Url" then some "https://sso.example/sso"
          else none)).idp = none := by decide

/-- C9 (amended): the entity-id and callback overrides are optional and
independently applied, and with no override headers the resolver yields
the defaults (own origin as entity id, own `/login` path as ACS URL, no
idp entry); the SSO-endpoint and signing-certificate overrides, however,
take effect only when the `X-Saml-Idp` header is also present. -/
theorem saml_args_overrides (root : Origin) (h : Headers) :
    ((∀ k, h k = none) →
      saml_args root h = ⟨root.str, root.str ++ "/" ++ "login", none⟩) ∧
    (∀ v, h "X-Saml-Entity-Id" = some v →
      (saml_args root h).entity_id = v) ∧
    (h "X-Saml-Entity-Id" = none → (saml_args root h).entity_id = root.str) ∧
    (∀ v, h "X-Saml-Acs" = some v →
      (saml_args root h).acs_url = urljoin root v) ∧
    (h "X-Saml-Acs" = none →
      (saml_args root h).acs_url = root.str ++ "/" ++ "login") ∧
    (h "X-Saml-Idp" = none → (saml_args root h).idp = none) ∧
    (∀ n, h "X-Saml-Idp" = some n →
      (saml_args root h).idp =
        some ⟨n, h "X-Saml-Idp-Url", h "X-Saml-Idp-Cert"⟩) := by
  have hlogin : urljoin root "login" = root.str ++ "/" ++ "login" := rfl
  refine ⟨fun hk => ?_, fun v hv => ?_, fun hv => ?_, fun v hv => ?_,
    fun hv => ?_, fun hv => ?_, fun n hv => ?_⟩
  · simp [saml_args, hk, hlogin]
  · simp [saml_args, hv]
  · simp [saml_args, hv]
  · simp [saml_args, hv]
  · simp [saml_args, hv, hlogin]
  · simp [saml_args, hv]
  · simp [saml_args, hv]

/-- C9 amended witness: the all-defaults resolution, and an idp entry
appearing when the `X-Saml-Idp` header is supplied alone. -/
theorem saml_args_overrides_witness :
    saml_args ⟨"https", "me.example"⟩ (fun _ => none) =
      ⟨"https://me.example", "https://me.example/login", none⟩ ∧
    (saml_args ⟨"https", "me.example"⟩
        (fun k => if k = "X-Saml-Idp" then some "myidp" else none)).idp =
      some ⟨"myidp", none, none⟩ := by
  constructor
  · have happ := (saml_args_overrides ⟨"https", "me.example"⟩
        (fun _ => none)).1 (fun _ => rfl)
    exact happ.trans (by decide)
  · have happ := (saml_args_overrides ⟨"https", "me.example"⟩
        (fun k => if k = "X-Saml-Idp" then some "myidp" else none)).2.2.2.2.2.2
        "myidp" (by decide)
    exact happ.trans (by decide)

/-- C5: when both a path-segment return value and an `rd` query field are
supplied, the ReturnDestination equals the one computed from `rd` alone,
and the conflict warning is logged exactly once. -/
theorem rd_precedence (req : RedirectRequest) (r : String)
    (hrd : req.rd = some r) (hseg : req.return_to ≠ "") :
    (login_redirect req).return_to =
      (login_redirect { req with return_to := "" }).return_to ∧
    (login_redirect req).warnings = 1 := by
  constructor
  · simp [login_redirect, hrd]
  · simp [login_redirect, hrd, hseg]

/-- C5 witness: with `rd = /rdpath?a=1` and path segment `seg`, the
ReturnDestination matches the `rd`-only computation and one warning is
recorded. -/
theorem rd_precedence_witness :
    (login_redirect ⟨some "/rdpath?a=1", "seg", "b=2", "/login/seg",
        fun _ => none, ⟨"https", "h"⟩⟩).return_to =
      (login_redirect ⟨some "/rdpath?a=1", "", "b=2", "/login/seg",
        fun _ => none, ⟨"https", "h"⟩⟩).return_to ∧
    (login_redirect ⟨some "/rdpath?a=1", "seg", "b=2", "/login/seg",
        fun _ => none, ⟨"https", "h"⟩⟩).warnings = 1 :=
  rd_precedence ⟨some "/rdpath?a=1", "seg", "b=2", "/login/seg",
    fun _ => none, ⟨"https", "h"⟩⟩ "/rdpath?a=1" rfl (by decide)

/-- C6 counterexample: under the `rd` convention the ReturnDestination is
not normalized — `rd = foo` produces the ReturnDestination `foo`, which
does not begin with `/`. -/
theorem return_to_not_slash_prefixed :
    (login_redirect ⟨some "foo", "", "", "/login/", fun _ => none,
        ⟨"https", "h"⟩⟩).return_to = "foo" ∧
    pyStartsWith "foo" "/" = false := by decide

/-- C6 (amended): under the path-segment convention the ReturnDestination
always begins with `/`; under the `rd` convention it begins with `/`
exactly when the path parsed from `rd` does — no `/` is prepended
there. -/
theorem return_to_slash_amended (req : RedirectRequest) :
    (req.rd = none →
      pyStartsWith (login_redirect req).return_to "/" = true) ∧
    (∀ r, req.rd = some r →
      pyStartsWith (login_redirect req).return_to "/" =
        pyStartsWith (urlparsePathQuery r).1 "/") := by
  constructor
  · intro hrd
    simp only [login_redirect, hrd]
    have hqs : pyStartsWith (if ("?" ++ req.query_string = "?") then ""
        else "?" ++ req.query_string) "/" = false := by
      split
      · decide
      · exact pyStartsWith_qmark_append req.query_string
    rw [pyStartsWith_append_slash _ _ hqs]
    exact pyStartsWith_slash_append req.return_to
  · intro r hrd
    simp only [login_redirect, hrd]
    have hqs : pyStartsWith (if ("?" ++ (urlparsePathQuery r).2 = "?") then ""
        else "?" ++ (urlparsePathQuery r).2) "/" = false := by
      split
      · decide
      · exact pyStartsWith_qmark_append (urlparsePathQuery r).2
    rw [pyStartsWith_append_slash _ _ hqs]

/-- C6 amended witness: the path-segment convention yields a `/`-led
destination; the `rd` convention mirrors the parsed `rd` path. -/
theorem return_to_slash_amended_witness :
    pyStartsWith (login_redirect ⟨none, "dash", "a=1", "/login/dash",
        fun _ => none, ⟨"https", "h"⟩⟩).return_to "/" = true ∧
    pyStartsWith (login_redirect ⟨some "foo?x=1", "", "", "/login/",
        fun _ => none, ⟨"https", "h"⟩⟩).return_to "/" =
      pyStartsWith (urlparsePathQuery "foo?x=1").1 "/" :=
  ⟨(return_to_slash_amended ⟨none, "dash", "a=1", "/login/dash",
      fun _ => none, ⟨"https", "h"⟩⟩).1 rfl,
   (return_to_slash_amended ⟨some "foo?x=1", "", "", "/login/",
      fun _ => none, ⟨"https", "h"⟩⟩).2 "foo?x=1" rfl⟩

/-- C7: the ReturnDestination is the concatenation of the return path and,
when the return query is non-empty, `?` followed by the query; in
particular `GET /login/dashboard?tab=2` yields the relay state
`/dashboard?tab=2`, and an empty query leaves no trailing `?`. -/
theorem return_destination_concat (req : RedirectRequest) :
    (login_redirect req).return_to =
      specRetPath req ++
        (if specRetQuery req = "" then "" else "?" ++ specRetQuery req) ∧
    (login_redirect ⟨none, "dashboard", "tab=2", "/login/dashboard",
        req.headers, req.root⟩).return_to = "/dashboard?tab=2" := by
  constructor
  · rcases hrd : req.rd with _ | r <;>
      simp only [login_redirect, specRetPath, specRetQuery, hrd] <;>
      rw [qs_norm]
  · rfl

/-- C8 counterexample: a session established from an assertion without a
`two_factor` attribute stores Python `None` there; the subsequent 200
status response carries headers named `X-Saml-User`, `X-Saml-Groups`,
`X-Saml-2fa` — none named `X-Auth-*` — and the 2FA value is the string
`none`, which is neither `true` nor `false`. -/
theorem status_headers_counterexample :
    status ⟨some "abc", some ["staff"], some none⟩ none "/status" false =
      .ok [("X-Saml-User", "abc"), ("X-Saml-Groups", "staff"),
        ("X-Saml-2fa", "none")] (textStatusBody "abc" ["staff"] "none") ∧
    (login emptySession true (fun _ => none) (fun _ => none)
        (.ok ⟨fun k => if k = "uwnetid" then some "abc" else none,
          some ["staff"], none⟩)
        ⟨"https", "me.example"⟩ false).1 =
      ⟨some "abc", some ["staff"], some none⟩ ∧
    ([("X-Saml-User", "abc"), ("X-Saml-Groups", "staff"),
        ("X-Saml-2fa", "none")].all
      (fun kv => !(kv.1 == "X-Auth-User") && !(kv.1 == "X-Auth-Groups") &&
        !(kv.1 == "X-Auth-2FA"))) = true ∧
    ("none" ≠ "true" ∧ "none" ≠ "false") := by decide

/-- C8 (amended): every Allowed (200) status decision carries the headers
`X-Saml-User` (the user id), `X-Saml-Groups` (the groups colon-joined)
and `X-Saml-2fa` whose value is `str(has_2fa).lower()` — `true` or
`false` when the stored value is boolean, but `none` when the login
stored a missing `two_factor` attribute — together with either the JSON
body (fields `user`, `groups`, `two_factor`) or the plain-text
equivalent, selected by the Accept negotiation. -/
theorem status_ok_headers_amended (s : Session) (g : Option String)
    (path : String) (json : Bool) (uid : String)
    (hu : s.userid = some uid) (hne : uid ≠ "")
    (h2 : wants2fa path = true → pyTruthyBool (sessionGet2fa s) = true)
    (hg : ∀ gname, g = some gname → gname ∈ s.groups.getD []) :
    status s g path json =
      .ok ([("X-Saml-User", uid),
            ("X-Saml-Groups", joinSep ":" (s.groups.getD [])),
            ("X-Saml-2fa", pyStrLower (sessionGet2fa s))] ++
          (if json then [("Content-Type", "application/json")] else []))
        (if json then jsonStatusBody uid (s.groups.getD []) (sessionGet2fa s)
          else textStatusBody uid (s.groups.getD [])
            (pyStrLower (sessionGet2fa s))) ∧
    (∀ b, sessionGet2fa s = some b →
      pyStrLower (sessionGet2fa s) = if b then "true" else "false") ∧
    (sessionGet2fa s = none → pyStrLower (sessionGet2fa s) = "none") := by
  have hut : pyTruthyStr s.userid = true := by
    simp [hu, pyTruthyStr, hne]
  have hmain : (!(pyTruthyStr s.userid) ||
      (wants2fa path && !(pyTruthyBool (sessionGet2fa s)))) = false := by
    rcases hw : wants2fa path with _ | _
    · simp [hut]
    · simp [hut, h2 hw]
  have hgrp : (pyTruthyStr g &&
      !((s.groups.getD []).contains (g.getD ""))) = false := by
    rcases g with _ | gname
    · simp [pyTruthyStr]
    · have hmem := hg gname rfl
      simp [hmem]
  refine ⟨?_, fun b hb => ?_, fun hb => ?_⟩
  · rcases json with _ | _ <;>
      (simp only [status]
       rw [hmain, hgrp]
       simp [hu])
  · rcases b with _ | _ <;> simp [hb, pyStrLower]
  · simp [hb, pyStrLower]

/-- C8 amended witness: a fully-populated session on the combined
2FA-and-group route yields the 200 response with the `X-Saml-*` headers
and the JSON body. -/
theorem status_ok_headers_amended_witness :
    status ⟨some "abc", some ["staff", "dev"], some (some true)⟩
        (some "staff") "/status/2fa/group/staff" true =
      .ok [("X-Saml-User", "abc"), ("X-Saml-Groups", "staff:dev"),
        ("X-Saml-2fa", "true"), ("Content-Type", "application/json")]
        (jsonStatusBody "abc" ["staff", "dev"] (some true)) := by
  have happ := (status_ok_headers_amended
      ⟨some "abc", some ["staff", "dev"], some (some true)⟩ (some "staff")
      "/status/2fa/group/staff" true "abc" rfl (by decide) (by decide)
      (fun gname hgn => by injection hgn with hx; subst hx; decide)).1
  exact happ.trans (by decide)

end SamlProxy
